import Mathlib

/-!
Shallow embedding of the AI-soc-analyst detection pipeline core
(`app/services/schema_adapter.py`, `app/services/preprocessing.py`,
`app/services/model.py`, `app/services/risk.py`).

Python floats are modelled as exact rationals (`ℚ`); a possibly-NaN cell is
`Option ℚ` with `none` for NaN.  The two scikit-learn kernels whose outputs
are irrational (the fitted `IsolationForest`'s decision function / predictions
and `StandardScaler`'s square root) are abstracted as explicit parameters; all
surrounding arithmetic, control flow and dataframe bookkeeping are embedded
exactly from the source.
-/

namespace SocAnalyst

attribute [local semireducible] Rat.add Rat.mul Rat.inv Rat.sub Rat.ofScientific

instance {ε α : Type} [DecidableEq ε] [DecidableEq α] : DecidableEq (Except ε α) :=
  fun a b =>
    match a, b with
    | .ok x, .ok y =>
      if h : x = y then isTrue (by rw [h])
      else isFalse (by intro hc; cases hc; exact h rfl)
    | .error x, .error y =>
      if h : x = y then isTrue (by rw [h])
      else isFalse (by intro hc; cases hc; exact h rfl)
    | .ok _, .error _ => isFalse (by intro hc; cases hc)
    | .error _, .ok _ => isFalse (by intro hc; cases hc)

/-! ### Schema adapter (`app/services/schema_adapter.py`)

`detect_and_standardize_schema` is modelled at column level: a dataframe is
its list of column headers, which is all the function inspects or rewrites.
Python aliasing is made explicit: the embedding returns both the table the
function returns and the state of the caller's argument object after the
call, because `df.columns = ...` rewrites the caller's object in place, and
`df.rename` only rebinds the local name when the variant mapping is
non-empty. -/

/-- A pandas DataFrame, modelled by its column headers. -/
structure PyDF where
  cols : List String
deriving Repr, DecidableEq

/-- An ASCII whitespace character, as stripped by Python `str.strip()`. -/
def pySpace (c : Char) : Bool :=
  c == ' ' || c == '\t' || c == '\n' || c == '\r'

/-- Header normalization: `df.columns.astype(str).str.strip().str.lower()`
(strip surrounding whitespace, then lowercase). -/
def normalizeName (s : String) : String :=
  String.mk ((((s.toList.dropWhile pySpace).reverse.dropWhile pySpace).reverse).map
    Char.toLower)

/-- The variant table of `detect_and_standardize_schema` (canonical name,
accepted variant names, in source order). -/
def schemaVariants : List (String × List String) :=
  [("ip", ["ip_address", "source_ip", "client_ip"]),
   ("timestamp", ["time", "datetime", "event_time"]),
   ("status", ["response_code", "status_code"]),
   ("endpoint", ["url", "uri", "path", "request"])]

/-- The rename mapping built by the adapter: for each canonical target not
already a column, the first variant present is mapped to it. -/
def buildMapping (cols : List String) : List (String × String) :=
  schemaVariants.filterMap fun p =>
    if cols.contains p.1 then none
    else (p.2.find? (fun v => cols.contains v)).map fun v => (v, p.1)

/-- Embeds `df.rename(columns=mapping)` on the header list. -/
def applyRename (mapping : List (String × String)) (cols : List String) : List String :=
  cols.map fun c => ((mapping.lookup c).getD c)

/-- Steps 4-7 of the adapter: append the default columns `ip`, `status`,
`endpoint` when absent (`df["ip"] = "global"` etc. append a new column). -/
def addDefaults (cols : List String) : List String :=
  let c1 := if cols.contains "ip" then cols else cols ++ ["ip"]
  let c2 := if c1.contains "status" then c1 else c1 ++ ["status"]
  if c2.contains "endpoint" then c2 else c2 ++ ["endpoint"]

/-- Embeds `detect_and_standardize_schema(df)`.  Returns
`(returned table, caller's argument object after the call)`.
The header assignment `df.columns = ...` happens on the caller's object;
when the variant mapping is empty no `rename` copy is made, so the local
name keeps aliasing the caller's object and the default columns are added
to it as well. -/
def detect_and_standardize_schema (df0 : PyDF) : Except String (PyDF × PyDF) :=
  let normed := df0.cols.map normalizeName
  let mapping := buildMapping normed
  let renamed := if mapping.isEmpty then normed else applyRename mapping normed
  if ¬ renamed.contains "timestamp" then
    .error "Critical error: 'timestamp' column is missing and no variants were found."
  else
    let withDefaults := addDefaults renamed
    let callerAfter := if mapping.isEmpty then withDefaults else normed
    .ok (⟨withDefaults⟩, ⟨callerAfter⟩)

/-! ### Feature engineering (`app/services/preprocessing.py`)

Two parts of `build_features` are embedded: the timestamp-parsing fallback
chain of STEP 2, parameterized by the three parsers (`pd.to_datetime`
generic, Apache format with timezone, Apache format without timezone), and
the per-window aggregation of STEP 4. -/

/-- Python `str.strip("[]")`: remove every leading and trailing `[` or `]`. -/
def stripBrackets (s : String) : String :=
  let isBr : Char → Bool := fun c => c == '[' || c == ']'
  String.mk (((s.toList.dropWhile isBr).reverse.dropWhile isBr).reverse)

/-- Number of unparsed (`NaT`) entries of a parsed timestamp column:
`parsed_ts.isna().sum()`. -/
def unparsedCount {T : Type} (l : List (Option T)) : ℕ :=
  (l.filter fun o => o.isNone).length

/-- STEP 2 of `build_features`: strip enclosing brackets, then try the
generic parse `p1`; retry the whole column with the Apache-with-timezone
format `p2` when `isna().mean() > 0.5`, and with the Apache-without-timezone
format `p3` under the same test; raise when every row is still unparsed
(`isna().all()`). -/
def parse_timestamps {T : Type} (p1 p2 p3 : String → Option T) (col : List String) :
    Except String (List (Option T)) :=
  let ts := col.map stripBrackets
  let n := ts.length
  let r1 := ts.map p1
  let r2 := if n < 2 * unparsedCount r1 then ts.map p2 else r1
  let r3 := if n < 2 * unparsedCount r2 then ts.map p3 else r2
  if r3.all (fun o => o.isNone) then
    .error "Timestamp parsing failed for all rows. Unsupported date format."
  else
    .ok r3

/-- One cleaned log row inside a single `(ip, 5-minute window)` group:
its (already integer-cast) status code and its endpoint. -/
structure LogEvent where
  status : ℤ
  endpoint : String
deriving Repr, DecidableEq

/-- The behavioral features computed per window by STEP 4 of
`build_features`. -/
structure WindowFeatures where
  total_requests : ℕ
  failed_requests : ℕ
  unique_endpoints : ℕ
  success_ratio : ℚ
  request_rate_per_minute : ℚ
deriving Repr, DecidableEq

/-- STEP 4 of `build_features` for one group `g`:
`total_requests = size`, `failed_requests = (status >= 400).sum()`,
`unique_endpoints = endpoint.nunique()`,
`success_ratio = 1 - failed/total` when `total > 0` else `1.0`,
`request_rate_per_minute = total / 5.0`. -/
def build_window_features (g : List LogEvent) : WindowFeatures :=
  let total := g.length
  let failed := (g.filter fun e => 400 ≤ e.status).length
  { total_requests := total
    failed_requests := failed
    unique_endpoints := (g.map (fun e => e.endpoint)).eraseDups.length
    success_ratio := if 0 < total then 1 - (failed : ℚ) / (total : ℚ) else 1
    request_rate_per_minute := (total : ℚ) / 5 }

/-! ### Anomaly detection engine (`app/services/model.py`)

`run_isolation_forest` is embedded over a dataframe given by its column
headers plus, per row, the six feature cells (`none` = NaN).  The fitted
`IsolationForest`'s outputs on the valid rows are abstracted as the two
parameters `decision` (raw `decision_function` values) and `predictL`
(`predict` labels); `StandardScaler` does not influence any embedded output
and is elided.  Everything else — the validation steps, the missing-value
filtering, the `< 2`-row degenerate branch, the fixed
`IsolationForest(contamination=0.05, n_estimators=100)` configuration and
the STEP 6 risk normalization — is embedded exactly. -/

/-- The feature columns `model.py` requires (`REQUIRED_FEATURES`). -/
def REQUIRED_FEATURES : List String :=
  ["total_requests", "failed_requests", "success_ratio",
   "unique_endpoints", "request_rate_per_minute", "avg_time_gap_seconds"]

/-- One input row of `run_isolation_forest`: the six feature cells, each
possibly NaN. -/
structure FeatureRow where
  total_requests : Option ℚ
  failed_requests : Option ℚ
  success_ratio : Option ℚ
  unique_endpoints : Option ℚ
  request_rate_per_minute : Option ℚ
  avg_time_gap_seconds : Option ℚ
deriving Repr, DecidableEq

/-- The input dataframe of `run_isolation_forest`: its header list plus the
six feature cells of every row (meaningful whenever the six required columns
are present, which the function checks before touching any cell). -/
structure FeatureDF where
  cols : List String
  rows : List FeatureRow
deriving Repr, DecidableEq

/-- The row-validity mask `~X.isna().any(axis=1)`: a row is kept exactly when
none of its six feature cells is NaN. -/
def rowValid (r : FeatureRow) : Bool :=
  r.total_requests.isSome && r.failed_requests.isSome && r.success_ratio.isSome &&
    r.unique_endpoints.isSome && r.request_rate_per_minute.isSome &&
    r.avg_time_gap_seconds.isSome

/-- Number of rows surviving the missing-value filtering
(`len(valid_indices)`). -/
def countValid (rows : List FeatureRow) : ℕ :=
  (rows.filter rowValid).length

/-- Which model the engine ran: the `< 2`-row no-model branch, or the
isolation-forest fit with its contamination fraction and tree count. -/
inductive DetectPath
  | degenerate
  | ensemble (contamination : ℚ) (n_estimators : ℕ)
deriving Repr, DecidableEq

/-- The three columns `run_isolation_forest` appends to a row (`none` = NaN,
as assigned to the filtered-out rows). -/
structure ScoredRow where
  anomaly_label : Option ℚ
  anomaly_score : Option ℚ
  risk_score : Option ℚ
deriving Repr, DecidableEq

/-- The result of `run_isolation_forest`: which path ran, and the appended
columns of every input row in order. -/
structure DetectResult where
  path : DetectPath
  rows : List ScoredRow
deriving Repr, DecidableEq

/-- Embeds `numpy_array.max()` (0 on the empty array, which the code never hits). -/
def listMax : List ℚ → ℚ
  | [] => 0
  | a :: l => l.foldl max a

/-- Embeds `numpy_array.min()` (0 on the empty array, which the code never hits). -/
def listMin : List ℚ → ℚ
  | [] => 0
  | a :: l => l.foldl min a

/-- STEP 6 of `run_isolation_forest`: map one raw decision value `s` to the
0-100 risk scale, `100*(raw_max - s)/(raw_max - raw_min)` when the batch of
decision values `scores` has positive spread, else the flat `50.0`. -/
def minmaxRisk (scores : List ℚ) (s : ℚ) : ℚ :=
  let mx := listMax scores
  let mn := listMin scores
  if mn < mx then 100 * (mx - s) / (mx - mn) else 50

/-- STEP 7 of `run_isolation_forest`: walk the input rows, giving the j-th
valid row the j-th model label and decision value (and its STEP 6 risk),
and every filtered-out row NaN in all three appended columns. -/
def assignScores (decAll : List ℚ) :
    List FeatureRow → List ℚ → List ℚ → List ScoredRow
  | [], _, _ => []
  | r :: rs, dec, lab =>
    if rowValid r then
      { anomaly_label := some (lab.headD 0)
        anomaly_score := some (dec.headD 0)
        risk_score := some (minmaxRisk decAll (dec.headD 0)) } ::
        assignScores decAll rs dec.tail lab.tail
    else
      ⟨none, none, none⟩ :: assignScores decAll rs dec lab

/-- Embeds `run_isolation_forest(df)`, with the fitted forest's outputs on the
valid rows supplied as `decision` (raw `decision_function` values) and
`predictL` (`predict` labels). -/
def run_isolation_forest (decision predictL : List ℚ) (df : FeatureDF) :
    Except String DetectResult :=
  if df.rows.isEmpty then
    .error "Anomaly detection failed: Input dataset is empty."
  else if ¬ (REQUIRED_FEATURES.filter fun c => ¬ df.cols.contains c).isEmpty then
    .error "Anomaly detection failed: Missing required feature columns."
  else if countValid df.rows = 0 then
    .error "Anomaly detection failed: No valid numerical data available after filtering missing values."
  else if countValid df.rows < 2 then
    .ok { path := .degenerate
          rows := df.rows.map fun r =>
            if rowValid r then ⟨some 1, some 0, some 50⟩ else ⟨none, none, none⟩ }
  else
    .ok { path := .ensemble (1/20) 100
          rows := assignScores (decision.take (countValid df.rows)) df.rows
            (decision.take (countValid df.rows)) (predictL.take (countValid df.rows)) }

/-! ### Risk scorer (`app/services/risk.py`)

`assign_risk_levels` is embedded over a dataframe given by column-presence
flags (the code branches on `"success_ratio" in result.columns` etc.), the
per-row cells, and the hour-of-day column parsed from `window_start`
(`none` when the column is absent or `pd.to_datetime` raised, in which case
the whole after-hours component is zero).  `StandardScaler` on
`request_rate_per_minute` involves a square root, so the standardized rates
are abstracted as the parameter `spikeZ`; the clip, the weights, the final
min-max-or-clip normalization, the level thresholds and the sort are
embedded exactly.

The final `result.sort_values("risk_score", ascending=False)` uses pandas'
default `kind='quicksort'` (numpy introsort), which is not a stable sort:
the program fixes only that the output is a reordering of the scored rows
that is non-increasing in `risk_score`, while the order of tied keys is an
implementation detail of the numpy kernel.  The embedding uses a concrete
descending insertion sort as its executable representative of this sort;
theorems about the output rely only on properties shared by every
descending sort of the batch (each output row is one of the scored rows),
never on the representative's tie order. -/

/-- One input row of `assign_risk_levels` (`none` = NaN cell). -/
structure RiskInRow where
  risk_score : Option ℚ
  success_ratio : Option ℚ
  request_rate_per_minute : ℚ
deriving Repr, DecidableEq

/-- The input dataframe of `assign_risk_levels`: which optional columns are
present, the per-row cells, and the hours parsed from `window_start`. -/
structure RiskDF where
  hasRiskScore : Bool
  hasSuccessRatio : Bool
  hasRate : Bool
  hours : Option (List ℕ)
  rows : List RiskInRow
deriving Repr, DecidableEq

/-- Anomaly component: `result.get("risk_score", 0-series)` then
`.fillna(0)`. -/
def anomalyBase (df : RiskDF) : List ℚ :=
  if df.hasRiskScore then df.rows.map fun r => r.risk_score.getD 0
  else List.replicate df.rows.length 0

/-- Failure component: `(1.0 - success_ratio) * 100.0` when the column is
present (NaN cells propagate and are zeroed by `fillna(0)`), else zeros. -/
def failureComponent (df : RiskDF) : List ℚ :=
  if df.hasSuccessRatio then
    df.rows.map fun r =>
      match r.success_ratio with
      | some s => (1 - s) * 100
      | none => 0
  else List.replicate df.rows.length 0

/-- Embeds `np.clip(x, 0, 100)`. -/
def clip01 (x : ℚ) : ℚ :=
  min 100 (max 0 x)

/-- Spike component: `np.clip(np.abs(spike_z)/3.0*100.0, 0, 100)` when the
rate column is present and the batch has more than one row, else zeros.
`spikeZ` holds the `StandardScaler` outputs. -/
def spikeComponent (df : RiskDF) (spikeZ : List ℚ) : List ℚ :=
  if df.hasRate ∧ 1 < df.rows.length then
    (List.range df.rows.length).map fun i => clip01 (|spikeZ.getD i 0| / 3 * 100)
  else List.replicate df.rows.length 0

/-- After-hours component: `100.0` when the window hour is `>= 22` or
`<= 5`, else `0.0`; all zeros when `window_start` is absent or unparsable. -/
def afterHoursComponent (df : RiskDF) : List ℚ :=
  match df.hours with
  | some hs =>
    (List.range df.rows.length).map fun i =>
      if 22 ≤ hs.getD i 0 ∨ hs.getD i 0 ≤ 5 then 100 else 0
  | none => List.replicate df.rows.length 0

/-- The weighted hybrid score
`0.50*anomaly + 0.20*failure + 0.15*spike + 0.15*after_hours`. -/
def hybridScores (df : RiskDF) (spikeZ : List ℚ) : List ℚ :=
  (List.range df.rows.length).map fun i =>
    (1/2) * (anomalyBase df).getD i 0 + (1/5) * (failureComponent df).getD i 0 +
      (3/20) * (spikeComponent df spikeZ).getD i 0 +
      (3/20) * (afterHoursComponent df).getD i 0

/-- Final risk scores: min-max normalize the hybrid scores to 0-100 when the
batch has positive spread, else `np.clip(hybrid_score, 0, 100)`. -/
def finalRiskScores (df : RiskDF) (spikeZ : List ℚ) : List ℚ :=
  let h := hybridScores df spikeZ
  let mx := listMax h
  let mn := listMin h
  if mn < mx then h.map fun x => 100 * (x - mn) / (mx - mn)
  else h.map clip01

/-- The categorical mapping `_to_risk_level`. -/
def _to_risk_level (score : ℚ) : String :=
  if 75 ≤ score then "HIGH"
  else if 40 ≤ score then "MEDIUM"
  else "LOW"

/-- One output row of `assign_risk_levels`: the input row with its final
`risk_score` and `risk_level`. -/
structure RiskOutRow where
  base : RiskInRow
  risk_score : ℚ
  risk_level : String
deriving Repr, DecidableEq

/-- The scored batch before the final sort, in encounter order. -/
def scoredRows (spikeZ : List ℚ) (df : RiskDF) : List RiskOutRow :=
  (df.rows.zip (finalRiskScores df spikeZ)).map fun p =>
    ⟨p.1, p.2, _to_risk_level p.2⟩

/-- The descending comparison of the final sort. -/
def riskGE (a b : RiskOutRow) : Prop :=
  b.risk_score ≤ a.risk_score

instance : DecidableRel riskGE := fun a b =>
  inferInstanceAs (Decidable (b.risk_score ≤ a.risk_score))

instance : IsTotal RiskOutRow riskGE :=
  ⟨fun a b => le_total b.risk_score a.risk_score⟩

instance : IsTrans RiskOutRow riskGE :=
  ⟨fun _ _ _ h1 h2 => le_trans h2 h1⟩

/-- Embeds `assign_risk_levels(df)`: empty input passes through; otherwise
score every row and sort descending by `risk_score`.  The unstable pandas
quicksort is represented by a concrete descending sort (see the section
comment); no theorem depends on the tie order this representative
produces. -/
def assign_risk_levels (spikeZ : List ℚ) (df : RiskDF) : List RiskOutRow :=
  if df.rows.isEmpty then []
  else (scoredRows spikeZ df).insertionSort riskGE

/-! ### Helper lemmas -/

lemma foldl_max_bounds (l : List ℚ) (b : ℚ) :
    b ≤ l.foldl max b ∧ ∀ a ∈ l, a ≤ l.foldl max b := by
  induction l generalizing b with
  | nil => exact ⟨le_refl b, by simp⟩
  | cons c t ih =>
    refine ⟨le_trans (le_max_left b c) (ih (max b c)).1, ?_⟩
    intro a ha
    rcases List.mem_cons.mp ha with h | h
    · rw [h]
      exact le_trans (le_max_right b c) (ih (max b c)).1
    · exact (ih (max b c)).2 a h

lemma foldl_min_bounds (l : List ℚ) (b : ℚ) :
    l.foldl min b ≤ b ∧ ∀ a ∈ l, l.foldl min b ≤ a := by
  induction l generalizing b with
  | nil => exact ⟨le_refl b, by simp⟩
  | cons c t ih =>
    refine ⟨le_trans (ih (min b c)).1 (min_le_left b c), ?_⟩
    intro a ha
    rcases List.mem_cons.mp ha with h | h
    · rw [h]
      exact le_trans (ih (min b c)).1 (min_le_right b c)
    · exact (ih (min b c)).2 a h

lemma le_listMax {l : List ℚ} {a : ℚ} (h : a ∈ l) : a ≤ listMax l := by
  cases l with
  | nil => cases h
  | cons c t =>
    rcases List.mem_cons.mp h with h | h
    · rw [h]
      exact (foldl_max_bounds t c).1
    · exact (foldl_max_bounds t c).2 a h

lemma listMin_le {l : List ℚ} {a : ℚ} (h : a ∈ l) : listMin l ≤ a := by
  cases l with
  | nil => cases h
  | cons c t =>
    rcases List.mem_cons.mp h with h | h
    · rw [h]
      exact (foldl_min_bounds t c).1
    · exact (foldl_min_bounds t c).2 a h

lemma foldl_max_const (t : List ℚ) (c : ℚ) (h : ∀ x ∈ t, x = c) :
    t.foldl max c = c := by
  induction t with
  | nil => rfl
  | cons a s ih =>
    have ha : a = c := h a (List.mem_cons_self a s)
    subst ha
    simp only [List.foldl, max_self]
    exact ih fun x hx => h x (List.mem_cons_of_mem a hx)

lemma foldl_min_const (t : List ℚ) (c : ℚ) (h : ∀ x ∈ t, x = c) :
    t.foldl min c = c := by
  induction t with
  | nil => rfl
  | cons a s ih =>
    have ha : a = c := h a (List.mem_cons_self a s)
    subst ha
    simp only [List.foldl, min_self]
    exact ih fun x hx => h x (List.mem_cons_of_mem a hx)

lemma listMax_eq_listMin_of_const {l : List ℚ} {c : ℚ} (h : ∀ x ∈ l, x = c) :
    listMax l = listMin l := by
  cases l with
  | nil => rfl
  | cons a t =>
    have ha : a = c := h a (List.mem_cons_self a t)
    subst ha
    have ht : ∀ x ∈ t, x = a := fun x hx => h x (List.mem_cons_of_mem a hx)
    simp only [listMax, listMin, foldl_max_const t a ht, foldl_min_const t a ht]

lemma minmaxRisk_of_const {l : List ℚ} {c : ℚ} (h : ∀ x ∈ l, x = c) (s : ℚ) :
    minmaxRisk l s = 50 := by
  simp only [minmaxRisk, listMax_eq_listMin_of_const h, lt_self_iff_false, if_false]

lemma clip01_bounds (x : ℚ) : 0 ≤ clip01 x ∧ clip01 x ≤ 100 := by
  constructor
  · exact le_min (by norm_num) (le_max_left 0 x)
  · exact min_le_left 100 _

lemma finalRiskScores_bounds (df : RiskDF) (spikeZ : List ℚ) :
    ∀ x ∈ finalRiskScores df spikeZ, 0 ≤ x ∧ x ≤ 100 := by
  intro x hx
  unfold finalRiskScores at hx
  set h := hybridScores df spikeZ with hh
  by_cases hlt : listMin h < listMax h
  · simp only [hlt, if_true, List.mem_map] at hx
    obtain ⟨y, hy, rfl⟩ := hx
    have h1 : listMin h ≤ y := listMin_le hy
    have h2 : y ≤ listMax h := le_listMax hy
    have hpos : 0 < listMax h - listMin h := by linarith
    constructor
    · exact div_nonneg (by nlinarith) (le_of_lt hpos)
    · rw [div_le_iff₀ hpos]
      nlinarith
  · simp only [hlt, if_false, List.mem_map] at hx
    obtain ⟨y, _, rfl⟩ := hx
    exact clip01_bounds y

lemma countValid_cons (r : FeatureRow) (rs : List FeatureRow) :
    countValid (r :: rs) =
      if rowValid r then countValid rs + 1 else countValid rs := by
  simp only [countValid, List.filter_cons]
  split <;> simp

lemma assignScores_risk_of_score (decAll : List ℚ) :
    ∀ (rows : List FeatureRow) (dec lab : List ℚ),
      ∀ r ∈ assignScores decAll rows dec lab, ∀ s,
        r.anomaly_score = some s → r.risk_score = some (minmaxRisk decAll s) := by
  intro rows
  induction rows with
  | nil => intro dec lab r hr; cases hr
  | cons a rs ih =>
    intro dec lab r hr s hs
    by_cases hv : rowValid a
    · simp only [assignScores, hv, if_true] at hr
      rcases List.mem_cons.mp hr with rfl | h
      · simp only [Option.some.injEq] at hs
        simp [← hs]
      · exact ih dec.tail lab.tail r h s hs
    · simp only [assignScores, hv, if_false] at hr
      rcases List.mem_cons.mp hr with rfl | h
      · cases hs
      · exact ih dec lab r h s hs

lemma assignScores_scores (decAll : List ℚ) :
    ∀ (rows : List FeatureRow) (dec lab : List ℚ), countValid rows ≤ dec.length →
      (assignScores decAll rows dec lab).filterMap (fun r => r.anomaly_score) =
        dec.take (countValid rows) := by
  intro rows
  induction rows with
  | nil => intro dec lab _; simp [assignScores, countValid]
  | cons a rs ih =>
    intro dec lab hlen
    rw [countValid_cons] at hlen ⊢
    by_cases hv : rowValid a
    · rw [if_pos hv] at hlen ⊢
      cases dec with
      | nil => simp only [List.length_nil] at hlen; omega
      | cons d ds =>
        simp only [assignScores, hv, if_true, List.filterMap_cons, List.headD_cons,
          List.tail_cons, List.take_succ_cons]
        rw [ih ds lab.tail (by simpa using hlen)]
    · rw [if_neg hv] at hlen ⊢
      simp only [assignScores, hv, if_false, List.filterMap_cons]
      exact ih dec lab hlen

lemma run_ensemble_characterization {decision predictL : List ℚ} {df : FeatureDF}
    {res : DetectResult} (h : run_isolation_forest decision predictL df = .ok res)
    (hpath : res.path ≠ .degenerate) :
    2 ≤ countValid df.rows ∧
      res = ⟨.ensemble (1/20) 100,
             assignScores (decision.take (countValid df.rows)) df.rows
               (decision.take (countValid df.rows))
               (predictL.take (countValid df.rows))⟩ := by
  unfold run_isolation_forest at h
  split_ifs at h with h1 h2 h3 h4
  · exfalso
    injection h with h5
    rw [← h5] at hpath
    exact hpath rfl
  · injection h with h5
    exact ⟨by omega, h5.symm⟩

lemma to_risk_level_iff (s : ℚ) :
    (_to_risk_level s = "HIGH" ↔ 75 ≤ s) ∧
      (_to_risk_level s = "MEDIUM" ↔ 40 ≤ s ∧ s < 75) ∧
      (_to_risk_level s = "LOW" ↔ s < 40) := by
  unfold _to_risk_level
  split_ifs with h1 h2
  · refine ⟨iff_of_true rfl h1, iff_of_false (by decide) ?_, iff_of_false (by decide) ?_⟩
    · rintro ⟨-, hlt⟩
      linarith
    · intro hlt
      linarith
  · refine ⟨iff_of_false (by decide) h1, iff_of_true rfl ⟨h2, by linarith⟩,
      iff_of_false (by decide) ?_⟩
    intro hlt
    linarith
  · refine ⟨iff_of_false (by decide) h1, iff_of_false (by decide) ?_, iff_of_true rfl ?_⟩
    · rintro ⟨hge, -⟩
      exact h2 hge
    · linarith [not_le.mp h2]

/-! ### Claims -/

/-- Claim C7: every output row of the risk scorer satisfies
`0 ≤ risk_score ≤ 100`, and `risk_level` is `HIGH` exactly when
`risk_score ≥ 75`, `MEDIUM` exactly when `40 ≤ risk_score < 75`, and `LOW`
otherwise. -/
theorem c7_score_range_and_levels (spikeZ : List ℚ) (df : RiskDF)
    (out : RiskOutRow) (hmem : out ∈ assign_risk_levels spikeZ df) :
    0 ≤ out.risk_score ∧ out.risk_score ≤ 100 ∧
      (out.risk_level = "HIGH" ↔ 75 ≤ out.risk_score) ∧
      (out.risk_level = "MEDIUM" ↔ 40 ≤ out.risk_score ∧ out.risk_score < 75) ∧
      (out.risk_level = "LOW" ↔ out.risk_score < 40) := by
  unfold assign_risk_levels at hmem
  by_cases hn : df.rows.isEmpty
  · simp [hn] at hmem
  · simp only [hn, if_false] at hmem
    have hmem2 : out ∈ scoredRows spikeZ df := by
      have := List.perm_insertionSort riskGE (scoredRows spikeZ df)
      exact this.mem_iff.mp hmem
    unfold scoredRows at hmem2
    obtain ⟨p, hp, heq⟩ := List.mem_map.mp hmem2
    have hscore : out.risk_score = p.2 := by rw [← heq]
    have hlevel : out.risk_level = _to_risk_level p.2 := by rw [← heq]
    have hp2 : p.2 ∈ finalRiskScores df spikeZ := (List.of_mem_zip hp).2
    obtain ⟨hb0, hb1⟩ := finalRiskScores_bounds df spikeZ p.2 hp2
    obtain ⟨hH, hM, hL⟩ := to_risk_level_iff p.2
    rw [hscore, hlevel]
    exact ⟨hb0, hb1, hH, hM, hL⟩

/-- Witness for C7 at a concrete one-row batch with all optional columns
absent: the single output row has `risk_score` 0 and level `LOW`. -/
theorem c7_score_range_and_levels_witness :
    (⟨⟨none, none, 0⟩, 0, "LOW"⟩ : RiskOutRow) ∈
        assign_risk_levels [] ⟨false, false, false, none, [⟨none, none, 0⟩]⟩ ∧
      (0 ≤ (⟨⟨none, none, 0⟩, 0, "LOW"⟩ : RiskOutRow).risk_score ∧
        (⟨⟨none, none, 0⟩, 0, "LOW"⟩ : RiskOutRow).risk_score ≤ 100 ∧
        ((⟨⟨none, none, 0⟩, 0, "LOW"⟩ : RiskOutRow).risk_level = "HIGH" ↔
          75 ≤ (⟨⟨none, none, 0⟩, 0, "LOW"⟩ : RiskOutRow).risk_score) ∧
        ((⟨⟨none, none, 0⟩, 0, "LOW"⟩ : RiskOutRow).risk_level = "MEDIUM" ↔
          40 ≤ (⟨⟨none, none, 0⟩, 0, "LOW"⟩ : RiskOutRow).risk_score ∧
            (⟨⟨none, none, 0⟩, 0, "LOW"⟩ : RiskOutRow).risk_score < 75) ∧
        ((⟨⟨none, none, 0⟩, 0, "LOW"⟩ : RiskOutRow).risk_level = "LOW" ↔
          (⟨⟨none, none, 0⟩, 0, "LOW"⟩ : RiskOutRow).risk_score < 40)) :=
  ⟨by decide,
    c7_score_range_and_levels []
      ⟨false, false, false, none, [⟨none, none, 0⟩]⟩
      ⟨⟨none, none, 0⟩, 0, "LOW"⟩ (by decide)⟩

/-- Claim C8: for a (non-empty) 5-minute window aggregating the events `g`
of one actor, `total_requests` is the row count, `failed_requests` counts
the events with `status ≥ 400` (hence `failed_requests ≤ total_requests`
always), and `success_ratio = 1 - failed_requests/total_requests` (and is
`1.0` for a zero-row group). -/
theorem c8_window_aggregation (g : List LogEvent) (hg : g ≠ []) :
    (build_window_features g).total_requests = g.length ∧
      (build_window_features g).failed_requests =
        (g.filter fun e => 400 ≤ e.status).length ∧
      (build_window_features g).failed_requests ≤
        (build_window_features g).total_requests ∧
      (build_window_features g).success_ratio =
        1 - ((g.filter fun e => 400 ≤ e.status).length : ℚ) / (g.length : ℚ) ∧
      (build_window_features []).success_ratio = 1 := by
  refine ⟨rfl, rfl, List.length_filter_le _ _, ?_, rfl⟩
  have hpos : 0 < g.length := List.length_pos.mpr hg
  simp only [build_window_features, hpos, if_true]

/-- Witness for C8 on a concrete two-event window with one failure. -/
theorem c8_window_aggregation_witness :
    ([(⟨200, "/home"⟩ : LogEvent), ⟨404, "/admin"⟩] ≠ []) ∧
      ((build_window_features [⟨200, "/home"⟩, ⟨404, "/admin"⟩]).total_requests =
          ([(⟨200, "/home"⟩ : LogEvent), ⟨404, "/admin"⟩]).length ∧
        (build_window_features [⟨200, "/home"⟩, ⟨404, "/admin"⟩]).failed_requests =
          (([(⟨200, "/home"⟩ : LogEvent), ⟨404, "/admin"⟩]).filter
            fun e => 400 ≤ e.status).length ∧
        (build_window_features [⟨200, "/home"⟩, ⟨404, "/admin"⟩]).failed_requests ≤
          (build_window_features [⟨200, "/home"⟩, ⟨404, "/admin"⟩]).total_requests ∧
        (build_window_features [⟨200, "/home"⟩, ⟨404, "/admin"⟩]).success_ratio =
          1 - ((([(⟨200, "/home"⟩ : LogEvent), ⟨404, "/admin"⟩]).filter
            fun e => 400 ≤ e.status).length : ℚ) /
              (([(⟨200, "/home"⟩ : LogEvent), ⟨404, "/admin"⟩]).length : ℚ) ∧
        (build_window_features []).success_ratio = 1) :=
  ⟨by decide, c8_window_aggregation [⟨200, "/home"⟩, ⟨404, "/admin"⟩] (by decide)⟩

lemma all_isNone_iff_unparsedCount {T : Type} (l : List (Option T)) :
    (l.all fun o => o.isNone) = true ↔ unparsedCount l = l.length := by
  constructor
  · intro h
    unfold unparsedCount
    rw [List.filter_eq_self.mpr (by simpa [List.all_eq_true] using h)]
  · intro h
    rw [List.all_eq_true]
    intro o ho
    have heq : l.filter (fun o => o.isNone) = l :=
      (List.filter_sublist l).eq_of_length h
    rw [← heq] at ho
    exact (List.mem_filter.mp ho).2

lemma unparsedCount_le_length {T : Type} (l : List (Option T)) :
    unparsedCount l ≤ l.length :=
  List.length_filter_le _ l

/-- Claim C9: the feature engineer's timestamp parsing first strips
enclosing bracket characters, then tries in order the generic parse `p1`,
the Apache day/month-abbreviation/year format with timezone `p2`, and the
same format without timezone `p3`; each fallback runs only when the
previous attempt left strictly more than half of the rows unparsed, and
when every row is still unparsed after all attempts the function fails with
a `ValidationError`. -/
theorem c9_timestamp_fallback_chain {T : Type} (p1 p2 p3 : String → Option T)
    (col : List String) :
    (0 < col.length →
      2 * unparsedCount ((col.map stripBrackets).map p1) ≤ col.length →
        parse_timestamps p1 p2 p3 col = .ok ((col.map stripBrackets).map p1)) ∧
      (col.length < 2 * unparsedCount ((col.map stripBrackets).map p1) →
        2 * unparsedCount ((col.map stripBrackets).map p2) ≤ col.length →
          parse_timestamps p1 p2 p3 col = .ok ((col.map stripBrackets).map p2)) ∧
      (col.length < 2 * unparsedCount ((col.map stripBrackets).map p1) →
        col.length < 2 * unparsedCount ((col.map stripBrackets).map p2) →
        ¬ ((col.map stripBrackets).map p3).all (fun o => o.isNone) = true →
          parse_timestamps p1 p2 p3 col = .ok ((col.map stripBrackets).map p3)) ∧
      ((∀ s ∈ col.map stripBrackets, p1 s = none) →
        (∀ s ∈ col.map stripBrackets, p2 s = none) →
        (∀ s ∈ col.map stripBrackets, p3 s = none) →
          parse_timestamps p1 p2 p3 col =
            .error "Timestamp parsing failed for all rows. Unsupported date format.") := by
  have hlen : (col.map stripBrackets).length = col.length := List.length_map _ _
  have hlen1 : ((col.map stripBrackets).map p1).length = col.length := by
    rw [List.length_map, hlen]
  have hlen2 : ((col.map stripBrackets).map p2).length = col.length := by
    rw [List.length_map, hlen]
  have hlen3 : ((col.map stripBrackets).map p3).length = col.length := by
    rw [List.length_map, hlen]
  refine ⟨?_, ?_, ?_, ?_⟩
  · intro hn hle
    have h1 : ¬ ((col.map stripBrackets).length <
        2 * unparsedCount ((col.map stripBrackets).map p1)) := by
      rw [hlen]; omega
    have hall : ¬ ((col.map stripBrackets).map p1).all (fun o => o.isNone) = true := by
      intro hA
      have := (all_isNone_iff_unparsedCount _).mp hA
      rw [hlen1] at this
      omega
    simp only [parse_timestamps, if_neg h1, if_neg hall]
  · intro hgt hle
    have h1 : (col.map stripBrackets).length <
        2 * unparsedCount ((col.map stripBrackets).map p1) := by
      rw [hlen]; omega
    have h2 : ¬ ((col.map stripBrackets).length <
        2 * unparsedCount ((col.map stripBrackets).map p2)) := by
      rw [hlen]; omega
    have hu1 : unparsedCount ((col.map stripBrackets).map p1) ≤ col.length := by
      have := unparsedCount_le_length ((col.map stripBrackets).map p1)
      omega
    have hall : ¬ ((col.map stripBrackets).map p2).all (fun o => o.isNone) = true := by
      intro hA
      have := (all_isNone_iff_unparsedCount _).mp hA
      rw [hlen2] at this
      omega
    simp only [parse_timestamps, if_pos h1, if_neg h2, if_neg hall]
  · intro hgt1 hgt2 hall
    have h1 : (col.map stripBrackets).length <
        2 * unparsedCount ((col.map stripBrackets).map p1) := by
      rw [hlen]; omega
    have h2 : (col.map stripBrackets).length <
        2 * unparsedCount ((col.map stripBrackets).map p2) := by
      rw [hlen]; omega
    simp only [parse_timestamps, if_pos h1, if_pos h2, if_neg hall]
  · intro ha1 ha2 ha3
    have hA1 : ((col.map stripBrackets).map p1).all (fun o => o.isNone) = true := by
      rw [List.all_eq_true]
      intro o ho
      obtain ⟨s, hs, rfl⟩ := List.mem_map.mp ho
      rw [ha1 s hs]
      rfl
    have hA2 : ((col.map stripBrackets).map p2).all (fun o => o.isNone) = true := by
      rw [List.all_eq_true]
      intro o ho
      obtain ⟨s, hs, rfl⟩ := List.mem_map.mp ho
      rw [ha2 s hs]
      rfl
    have hA3 : ((col.map stripBrackets).map p3).all (fun o => o.isNone) = true := by
      rw [List.all_eq_true]
      intro o ho
      obtain ⟨s, hs, rfl⟩ := List.mem_map.mp ho
      rw [ha3 s hs]
      rfl
    have hu1 : unparsedCount ((col.map stripBrackets).map p1) =
        ((col.map stripBrackets).map p1).length :=
      (all_isNone_iff_unparsedCount _).mp hA1
    have hu2 : unparsedCount ((col.map stripBrackets).map p2) =
        ((col.map stripBrackets).map p2).length :=
      (all_isNone_iff_unparsedCount _).mp hA2
    by_cases hzero : col.length = 0
    · have hnil : col = [] := List.length_eq_zero.mp hzero
      subst hnil
      simp [parse_timestamps, unparsedCount]
    · have h1 : (col.map stripBrackets).length <
          2 * unparsedCount ((col.map stripBrackets).map p1) := by
        rw [hlen, hu1, hlen1]; omega
      have h2 : (col.map stripBrackets).length <
          2 * unparsedCount ((col.map stripBrackets).map p2) := by
        rw [hlen, hu2, hlen2]; omega
      simp only [parse_timestamps, if_pos h1, if_pos h2, if_pos hA3]

/-- Witness for C9: a single bracketed timestamp the generic parser accepts
is returned by the first attempt, with no fallback. -/
theorem c9_timestamp_fallback_chain_witness :
    0 < (["[x]"] : List String).length ∧
      2 * unparsedCount (((["[x]"] : List String).map stripBrackets).map
        (fun _ => some (0 : ℕ))) ≤ (["[x]"] : List String).length ∧
      parse_timestamps (fun _ => some (0 : ℕ)) (fun _ => none) (fun _ => none) ["[x]"] =
        .ok (((["[x]"] : List String).map stripBrackets).map (fun _ => some (0 : ℕ))) :=
  ⟨by decide, by decide,
    (c9_timestamp_fallback_chain (fun _ => some (0 : ℕ)) (fun _ => none)
      (fun _ => none) ["[x]"]).1 (by decide) (by decide)⟩

lemma required_filter_empty {cols : List String}
    (hcols : ∀ c ∈ REQUIRED_FEATURES, cols.contains c) :
    (REQUIRED_FEATURES.filter fun c => ¬ cols.contains c).isEmpty = true := by
  rw [List.isEmpty_iff, List.filter_eq_nil_iff]
  intro c hc
  simp only [decide_eq_true_eq, not_not]
  exact hcols c hc

/-- Claim C10 (amended): whenever exactly one row of the detection engine's
input survives missing-value filtering, the engine fits no model and
returns each surviving row with `anomaly_label = 1`, `anomaly_score = 0.0`
and `risk_score = 50.0`, while every filtered-out row receives missing
values in those three fields; with zero surviving rows the engine raises a
`ValidationError` instead of returning. -/
theorem c10_single_survivor_degenerate (decision predictL : List ℚ)
    (df : FeatureDF) (hcols : ∀ c ∈ REQUIRED_FEATURES, df.cols.contains c)
    (hone : countValid df.rows = 1) :
    run_isolation_forest decision predictL df =
      .ok ⟨.degenerate, df.rows.map fun r =>
        if rowValid r then ⟨some 1, some 0, some 50⟩ else ⟨none, none, none⟩⟩ := by
  have hne : ¬ df.rows.isEmpty = true := by
    intro hemp
    rw [List.isEmpty_iff.mp hemp] at hone
    simp [countValid] at hone
  have hmiss := required_filter_empty hcols
  unfold run_isolation_forest
  rw [if_neg hne, if_neg (not_not_intro hmiss), if_neg (by omega), if_pos (by omega)]

/-- Counterexample for C10 as stated: a single-row input whose row has a
missing feature value leaves zero surviving rows, and the engine raises
instead of returning the filtered-out row with missing fields. -/
theorem c10_zero_survivors_counterexample :
    run_isolation_forest [] []
        ⟨REQUIRED_FEATURES, [⟨none, some 0, some 0, some 0, some 0, some 0⟩]⟩ =
      .error "Anomaly detection failed: No valid numerical data available after filtering missing values." := by
  decide

/-- Witness for C10 (amended) on a two-row batch with one surviving row. -/
theorem c10_single_survivor_degenerate_witness :
    (∀ c ∈ REQUIRED_FEATURES, REQUIRED_FEATURES.contains c) ∧
      countValid [⟨some 0, some 0, some 0, some 0, some 0, some 0⟩,
        ⟨none, some 0, some 0, some 0, some 0, some 0⟩] = 1 ∧
      run_isolation_forest [] []
          ⟨REQUIRED_FEATURES,
            [⟨some 0, some 0, some 0, some 0, some 0, some 0⟩,
             ⟨none, some 0, some 0, some 0, some 0, some 0⟩]⟩ =
        .ok ⟨.degenerate,
          [(⟨some 0, some 0, some 0, some 0, some 0, some 0⟩ : FeatureRow),
           ⟨none, some 0, some 0, some 0, some 0, some 0⟩].map fun r =>
            if rowValid r then ⟨some 1, some 0, some 50⟩ else ⟨none, none, none⟩⟩ :=
  ⟨by decide, by decide,
    c10_single_survivor_degenerate [] []
      ⟨REQUIRED_FEATURES,
        [⟨some 0, some 0, some 0, some 0, some 0, some 0⟩,
         ⟨none, some 0, some 0, some 0, some 0, some 0⟩]⟩
      (by decide) (by decide)⟩

/-- Counterexample for C2 as stated: the detection engine applied to an
empty input raises a `ValidationError` rather than returning an empty
result. -/
theorem c2_empty_input_counterexample :
    run_isolation_forest [] [] ⟨REQUIRED_FEATURES, []⟩ =
      .error "Anomaly detection failed: Input dataset is empty." := by
  decide

/-- Claim C2 (amended): the detection engine raises a `ValidationError` on
every empty input, and also on merely sparse input — a non-empty batch with
the required columns present in which every row has some missing feature
value. -/
theorem c2_empty_and_sparse_raise (decision predictL : List ℚ)
    (cols : List String) (rows : List FeatureRow) :
    (run_isolation_forest decision predictL ⟨cols, []⟩ =
      .error "Anomaly detection failed: Input dataset is empty.") ∧
      (rows ≠ [] → countValid rows = 0 →
        (∀ c ∈ REQUIRED_FEATURES, cols.contains c) →
        run_isolation_forest decision predictL ⟨cols, rows⟩ =
          .error "Anomaly detection failed: No valid numerical data available after filtering missing values.") := by
  constructor
  · simp [run_isolation_forest]
  · intro hne h0 hcols
    have hne2 : ¬ (rows.isEmpty = true) := by
      intro hemp
      exact hne (List.isEmpty_iff.mp hemp)
    have hmiss := required_filter_empty hcols
    unfold run_isolation_forest
    rw [if_neg hne2, if_neg (not_not_intro hmiss), if_pos h0]

/-- Witness for C2 (amended) on an all-missing single-row batch. -/
theorem c2_empty_and_sparse_raise_witness :
    ([(⟨none, none, none, none, none, none⟩ : FeatureRow)] ≠ []) ∧
      countValid [⟨none, none, none, none, none, none⟩] = 0 ∧
      (∀ c ∈ REQUIRED_FEATURES, REQUIRED_FEATURES.contains c) ∧
      run_isolation_forest [] []
          ⟨REQUIRED_FEATURES, [⟨none, none, none, none, none, none⟩]⟩ =
        .error "Anomaly detection failed: No valid numerical data available after filtering missing values." :=
  ⟨by decide, by decide, by decide,
    (c2_empty_and_sparse_raise [] [] REQUIRED_FEATURES
      [⟨none, none, none, none, none, none⟩]).2 (by decide) (by decide) (by decide)⟩

/-- Counterexample for C3 as stated: on a two-row batch the engine emits the
raw decision values 1 and 3 as `anomaly_score` (not their negations), and
when all decision values are equal every row receives `risk_score` 50.0,
not 0. -/
theorem c3_not_negated_counterexample :
    (run_isolation_forest [1, 3] [1, 1]
        ⟨REQUIRED_FEATURES,
          [⟨some 0, some 0, some 0, some 0, some 0, some 0⟩,
           ⟨some 0, some 0, some 0, some 0, some 0, some 0⟩]⟩ =
      .ok ⟨.ensemble (1/20) 100,
           [⟨some 1, some 1, some 100⟩, ⟨some 1, some 3, some 0⟩]⟩) ∧
      ([some (1:ℚ), some 3] ≠ [some (-1), some (-3)]) ∧
      (run_isolation_forest [3, 3] [1, 1]
          ⟨REQUIRED_FEATURES,
            [⟨some 0, some 0, some 0, some 0, some 0, some 0⟩,
             ⟨some 0, some 0, some 0, some 0, some 0, some 0⟩]⟩ =
        .ok ⟨.ensemble (1/20) 100,
             [⟨some 1, some 3, some 50⟩, ⟨some 1, some 3, some 50⟩]⟩) ∧
      ((50:ℚ) ≠ 0) :=
  ⟨by decide, by decide, by decide, by decide⟩

/-- Claim C3 (amended): on the ensemble path the emitted `anomaly_score`
values are exactly the raw (non-negated) decision values of the model, each
emitted `risk_score` equals `100*(max - s)/(max - min)` over the batch's
decision values — the min-max normalization onto `[0,100]` of the negated
scores — and when all decision values are equal every scored row receives
the flat `risk_score` 50.0. -/
theorem c3_raw_scores_reversed_minmax (decision predictL : List ℚ)
    (df : FeatureDF) (res : DetectResult)
    (hrun : run_isolation_forest decision predictL df = .ok res)
    (hpath : res.path ≠ .degenerate)
    (hlen : countValid df.rows ≤ decision.length) :
    res.rows.filterMap (fun r => r.anomaly_score) =
      decision.take (countValid df.rows) ∧
      (∀ r ∈ res.rows, ∀ s, r.anomaly_score = some s →
        r.risk_score = some (minmaxRisk (decision.take (countValid df.rows)) s)) ∧
      (∀ c : ℚ, (∀ x ∈ decision.take (countValid df.rows), x = c) →
        ∀ r ∈ res.rows, ∀ s, r.anomaly_score = some s → r.risk_score = some 50) := by
  obtain ⟨h2, hres⟩ := run_ensemble_characterization hrun hpath
  subst hres
  refine ⟨?_, ?_, ?_⟩
  · rw [assignScores_scores _ _ _ _ (by rw [List.length_take]; omega),
      List.take_take, min_self]
  · intro r hr s hs
    exact assignScores_risk_of_score _ _ _ _ r hr s hs
  · intro c hc r hr s hs
    have hrisk := assignScores_risk_of_score _ _ _ _ r hr s hs
    rwa [minmaxRisk_of_const hc] at hrisk

/-- Witness for C3 (amended) at the concrete two-row batch with decision
values 1 and 3. -/
theorem c3_raw_scores_reversed_minmax_witness :
    (run_isolation_forest [1, 3] [1, 1]
        ⟨REQUIRED_FEATURES,
          [⟨some 0, some 0, some 0, some 0, some 0, some 0⟩,
           ⟨some 0, some 0, some 0, some 0, some 0, some 0⟩]⟩ =
      .ok ⟨.ensemble (1/20) 100,
           [⟨some 1, some 1, some 100⟩, ⟨some 1, some 3, some 0⟩]⟩) ∧
      ((⟨.ensemble (1/20) 100,
          [⟨some 1, some 1, some 100⟩, ⟨some 1, some 3, some 0⟩]⟩ :
            DetectResult).path ≠ .degenerate) ∧
      countValid [(⟨some 0, some 0, some 0, some 0, some 0, some 0⟩ : FeatureRow),
        ⟨some 0, some 0, some 0, some 0, some 0, some 0⟩] ≤ ([1, 3] : List ℚ).length ∧
      ((⟨.ensemble (1/20) 100,
          [⟨some 1, some 1, some 100⟩, ⟨some 1, some 3, some 0⟩]⟩ :
            DetectResult).rows.filterMap (fun r => r.anomaly_score) =
        ([1, 3] : List ℚ).take (countValid
          [(⟨some 0, some 0, some 0, some 0, some 0, some 0⟩ : FeatureRow),
           ⟨some 0, some 0, some 0, some 0, some 0, some 0⟩])) :=
  ⟨by decide, by decide, by decide,
    (c3_raw_scores_reversed_minmax [1, 3] [1, 1]
      ⟨REQUIRED_FEATURES,
        [⟨some 0, some 0, some 0, some 0, some 0, some 0⟩,
         ⟨some 0, some 0, some 0, some 0, some 0, some 0⟩]⟩
      ⟨.ensemble (1/20) 100,
        [⟨some 1, some 1, some 100⟩, ⟨some 1, some 3, some 0⟩]⟩
      (by decide) (by decide) (by decide)).1⟩

/-- Claim C1: evaluation of the engine at the claimed switch boundary. A
49-row batch does not take a statistical path — the code has no such
branch — and is fitted with the fixed `IsolationForest(contamination=0.05,
n_estimators=100)`; a 50-row batch gets the same fixed configuration, whose
contamination 0.05 differs from the claimed `min(0.1, 10/n)` at both 49 and
50 rows. -/
theorem c1_no_switch_fixed_contamination :
    ((run_isolation_forest (List.replicate 49 (0:ℚ)) (List.replicate 49 (1:ℚ))
        ⟨REQUIRED_FEATURES,
          List.replicate 49 ⟨some 0, some 0, some 0, some 0, some 0, some 0⟩⟩).toOption.map
        DetectResult.path = some (.ensemble (1/20) 100)) ∧
      ((run_isolation_forest (List.replicate 50 (0:ℚ)) (List.replicate 50 (1:ℚ))
          ⟨REQUIRED_FEATURES,
            List.replicate 50 ⟨some 0, some 0, some 0, some 0, some 0, some 0⟩⟩).toOption.map
          DetectResult.path = some (.ensemble (1/20) 100)) ∧
      ((1/20 : ℚ) ≠ min (1/10) (10/49)) ∧ ((1/20 : ℚ) ≠ min (1/10) (10/50)) :=
  ⟨by decide, by decide, by decide, by decide⟩

/-- Claim C4: the engine does not auto-select numeric columns or impute
missing values. A batch whose numeric columns are named `feat1`, `feat2`
(plus a text column) is rejected for missing the six fixed feature columns,
and with the fixed columns present a row with a missing value is dropped
and emitted with missing `anomaly_label`, `anomaly_score`, `risk_score`
instead of being mean-imputed. -/
theorem c4_fixed_columns_no_imputation :
    (run_isolation_forest [] []
        ⟨["feat1", "feat2", "category"],
          List.replicate 5 ⟨some 0, some 0, some 0, some 0, some 0, some 0⟩⟩ =
      .error "Anomaly detection failed: Missing required feature columns.") ∧
      (run_isolation_forest [1, 3] [1, 1]
          ⟨REQUIRED_FEATURES,
            [⟨some 0, some 0, some 0, some 0, some 0, some 0⟩,
             ⟨none, some 0, some 0, some 0, some 0, some 0⟩,
             ⟨some 0, some 0, some 0, some 0, some 0, some 0⟩]⟩ =
        .ok ⟨.ensemble (1/20) 100,
             [⟨some 1, some 1, some 100⟩, ⟨none, none, none⟩,
              ⟨some 1, some 3, some 0⟩]⟩) :=
  ⟨by decide, by decide⟩

/-- Counterexample for C5 as stated: after the call, the caller's argument
table has had its headers normalized in place (`"  IP_Address  "` became
`"ip_address"`), so the original table is not left unchanged. -/
theorem c5_inplace_mutation_counterexample :
    detect_and_standardize_schema ⟨["  IP_Address  ", "Timestamp"]⟩ =
      .ok (⟨["ip", "timestamp", "status", "endpoint"]⟩,
           ⟨["ip_address", "timestamp"]⟩) ∧
      (["ip_address", "timestamp"] ≠ ["  IP_Address  ", "Timestamp"]) :=
  ⟨by decide, by decide⟩

/-- Claim C5 (amended): on success the schema standardization returns a
standardized table, but it normalizes the caller's column headers in place;
when the variant mapping is empty no rename copy is made, so the caller's
object is the returned table itself (defaults included), and when the
mapping is non-empty the caller's object keeps the normalized headers. -/
theorem c5_mutation_characterization (df0 ret after : PyDF)
    (h : detect_and_standardize_schema df0 = .ok (ret, after)) :
    ((buildMapping (df0.cols.map normalizeName)).isEmpty = true → after = ret) ∧
      ((buildMapping (df0.cols.map normalizeName)).isEmpty = false →
        after.cols = df0.cols.map normalizeName) := by
  by_cases hm : (buildMapping (df0.cols.map normalizeName)).isEmpty = true
  · simp only [detect_and_standardize_schema, hm, if_true] at h
    split_ifs at h with ht
    injection h with h5
    injection h5 with ha hb
    subst ha
    subst hb
    exact ⟨fun _ => rfl, fun hfalse => by rw [hm] at hfalse; cases hfalse⟩
  · have hm2 : (buildMapping (df0.cols.map normalizeName)).isEmpty = false :=
      Bool.of_not_eq_true hm
    simp only [detect_and_standardize_schema, hm2, if_false, Bool.false_eq_true] at h
    split_ifs at h with ht
    injection h with h5
    injection h5 with ha hb
    subst ha
    subst hb
    refine ⟨fun htrue => ?_, fun _ => rfl⟩
    rw [hm2] at htrue
    cases htrue

/-- Witness for C5 (amended) on an already-canonical single-column table:
the mapping is empty and the caller's object is the returned table. -/
theorem c5_mutation_characterization_witness :
    detect_and_standardize_schema ⟨["Timestamp"]⟩ =
      .ok (⟨["timestamp", "ip", "status", "endpoint"]⟩,
           ⟨["timestamp", "ip", "status", "endpoint"]⟩) ∧
      (buildMapping ((["Timestamp"] : List String).map normalizeName)).isEmpty = true ∧
      (⟨["timestamp", "ip", "status", "endpoint"]⟩ : PyDF) =
        ⟨["timestamp", "ip", "status", "endpoint"]⟩ :=
  ⟨by decide, by decide,
    (c5_mutation_characterization ⟨["Timestamp"]⟩
      ⟨["timestamp", "ip", "status", "endpoint"]⟩
      ⟨["timestamp", "ip", "status", "endpoint"]⟩ (by decide)).1 (by decide)⟩

end SocAnalyst
